import Mathlib

/-!
Verification of the setup orchestration engine of the Evident Video Fact
Checker repository (src/setup.py): a shallow embedding of the hardware-tier
resolution algorithm, the hardware-detection parsers, the service-launch
polling logic, the configuration-file step, and the smoke test, together
with theorems settling the specification claims about them.

Numeric values that Python represents as floats (VRAM and RAM amounts in
gigabytes) are embedded as rationals; the inputs the program actually
parses there are integer unit counts, so no precision is lost.
-/

namespace EvidentSetup

/- ──────────────────────────────────────────────────────────────────
   Character-list utilities, mirroring the Python string operations
   used by setup.py (str.strip, str.split, substring membership,
   str.startswith, int()/float() parsing).
   ────────────────────────────────────────────────────────────────── -/

/-- Mirrors Python `str.strip()` on the left: drop leading whitespace. -/
def trimLeftChars (cs : List Char) : List Char :=
  cs.dropWhile Char.isWhitespace

/-- Mirrors Python `str.strip()`: drop leading and trailing whitespace. -/
def trimChars (cs : List Char) : List Char :=
  (trimLeftChars (trimLeftChars cs).reverse).reverse

/-- Mirrors Python `str.split(sep)` for a one-character separator:
always returns at least one (possibly empty) segment. -/
def splitOnChar (c : Char) : List Char → List (List Char)
  | [] => [[]]
  | x :: xs =>
    let r := splitOnChar c xs
    if x = c then [] :: r
    else
      match r with
      | [] => [[x]]
      | y :: ys => (x :: y) :: ys

/-- Mirrors Python `pat in s` (contiguous-substring membership). -/
def containsSeq (pat : List Char) : List Char → Bool
  | [] => decide (pat = [])
  | x :: xs => List.isPrefixOf pat (x :: xs) || containsSeq pat xs

/-- Mirrors Python `s.split(sep, 1)[1]` access: the part of the list after
the first occurrence of `c`, or `none` when `c` does not occur (the case in
which the Python indexing raises `IndexError`). -/
def afterFirstChar (c : Char) : List Char → Option (List Char)
  | [] => none
  | x :: xs => if x = c then some xs else afterFirstChar c xs

/-- Digit-list accumulator for the decimal parsers: `none` as soon as a
non-digit character occurs. -/
def digitsVal : List Char → ℕ → Option ℕ
  | [], acc => some acc
  | c :: rest, acc =>
    if c.isDigit then digitsVal rest (acc * 10 + (c.toNat - 48)) else none

/-- Decimal value of a nonempty all-digit character list, `none` otherwise. -/
def digitsToNat (cs : List Char) : Option ℕ :=
  match cs with
  | [] => none
  | _ :: _ => digitsVal cs 0

/-- Mirrors Python `int(raw)` on an already-stripped string: optional sign
followed by at least one digit. -/
def parseIntChars (cs : List Char) : Option ℤ :=
  match cs with
  | [] => none
  | c :: rest =>
    if c = '-' then (digitsToNat rest).map (fun n => -(n : ℤ))
    else if c = '+' then (digitsToNat rest).map (fun n => (n : ℤ))
    else (digitsToNat cs).map (fun n => (n : ℤ))

/-- Value of an optionally-empty digit run (empty counts as 0); used for the
integer and fractional parts around a decimal point. -/
def optDigitsVal (cs : List Char) : Option ℕ :=
  match cs with
  | [] => some 0
  | _ :: _ => digitsToNat cs

/-- Unsigned decimal number with optional fractional part, as a rational.
Mirrors the grammar Python `float()` accepts for the plain decimal outputs
the probed tools emit (no exponent forms, which those tools never print). -/
def parseDecCore (cs : List Char) : Option ℚ :=
  match splitOnChar '.' cs with
  | [ip] => (digitsToNat ip).map (fun n => (n : ℚ))
  | [ip, fp] =>
    if ip = [] ∧ fp = [] then none
    else
      match optDigitsVal ip, optDigitsVal fp with
      | some i, some f => some ((i : ℚ) + (f : ℚ) / (10 : ℚ) ^ fp.length)
      | _, _ => none
  | _ => none

/-- Mirrors Python `float(raw)` on an already-stripped string, restricted to
the plain decimal grammar described at `parseDecCore`. -/
def parseFloatChars (cs : List Char) : Option ℚ :=
  match cs with
  | [] => none
  | c :: rest =>
    if c = '-' then (parseDecCore rest).map (fun q => -q)
    else if c = '+' then parseDecCore rest
    else parseDecCore cs

/- ──────────────────────────────────────────────────────────────────
   Data model: model tiers and the static catalog (setup.py:47-55),
   the AMD VRAM lookup table (setup.py:58-63).
   ────────────────────────────────────────────────────────────────── -/

/-- One entry of the static model-tier catalog: VRAM/RAM floors, human
label, and the three role-specific model identifiers. -/
structure Tier where
  min_vram : ℚ
  min_ram : ℚ
  label : String
  extract : String
  verify : String
  write : String
deriving DecidableEq, Repr

/-- The static, ordered model-tier catalog, most capable first
(setup.py:47-55). -/
def MODEL_TIERS : List Tier :=
  [⟨24, 32, "High-end GPU (24 GB+ VRAM)", "qwen3:8b", "qwen3:30b", "gemma3:27b"⟩,
   ⟨16, 32, "Mid-range GPU (16 GB VRAM)", "qwen3:8b", "qwen3:14b", "gemma3:12b"⟩,
   ⟨12, 32, "Entry GPU (12 GB VRAM)", "qwen3:8b", "qwen3:8b", "gemma3:9b"⟩,
   ⟨0, 64, "High-end CPU (64 GB+ RAM)", "qwen3:8b", "qwen3:14b", "gemma3:9b"⟩,
   ⟨0, 32, "Mid-range CPU (32 GB+ RAM)", "qwen3:8b", "qwen3:8b", "llama3:8b"⟩,
   ⟨0, 16, "Minimum (16 GB RAM)", "phi3:mini", "phi3:mini", "phi3:mini"⟩]

/-- The AMD model-name→VRAM lookup table used on Windows because the WMI
`AdapterRAM` field is 32-bit capped (setup.py:58-63), in its declared
(insertion) order, which is the order the Python dict iterates in. -/
def AMD_VRAM_TABLE : List (String × ℚ) :=
  [("7900 XTX", 24), ("7900 XT", 20), ("7800 XT", 16),
   ("7700 XT", 12), ("7600", 8), ("6950 XT", 16),
   ("6900 XT", 16), ("6800 XT", 16), ("6800", 16),
   ("6750 XT", 12), ("6700 XT", 12)]

/-- The model selection produced by step 5: the three role models and the
tier label that was printed as "Hardware tier". -/
structure Selection where
  extract : String
  verify : String
  write : String
  tier_name : String
deriving DecidableEq, Repr

/-- The selection built from a catalog tier when its thresholds match. -/
def tierSelection (t : Tier) : Selection :=
  ⟨t.extract, t.verify, t.write, t.label⟩

/-- The preset defaults that `step_models` initializes before scanning the
catalog (setup.py:567-568): they survive when no catalog entry matches. -/
def defaultSelection : Selection :=
  ⟨"phi3:mini", "phi3:mini", "phi3:mini", "Minimum"⟩

/-- The tier-selection loop of `step_models` (setup.py:569-573): scan the
given catalog in order and return the first entry whose two floors are both
met, falling back to the preset defaults if none is. -/
def selectLoop (vram ram : ℚ) : List Tier → Selection
  | [] => defaultSelection
  | t :: rest =>
    if t.min_vram ≤ vram ∧ t.min_ram ≤ ram then tierSelection t
    else selectLoop vram ram rest

/-- Tier resolution as `step_models` performs it over the static catalog
(setup.py:560-573): hardware snapshot VRAM/RAM in, model selection out. -/
def selectTier (vram ram : ℚ) : Selection :=
  selectLoop vram ram MODEL_TIERS

/-- Position of the first matching entry in a catalog segment; equals the
segment length when nothing matches. -/
def tierRankAux (vram ram : ℚ) : List Tier → ℕ
  | [] => 0
  | t :: rest =>
    if t.min_vram ≤ vram ∧ t.min_ram ≤ ram then 0
    else tierRankAux vram ram rest + 1

/-- Capability rank of the tier `selectTier` returns: its position in the
catalog's declared descending-capability order (0 = most capable), with the
built-in default ranked strictly below every catalog entry at
`MODEL_TIERS.length`. -/
def tierRank (vram ram : ℚ) : ℕ :=
  tierRankAux vram ram MODEL_TIERS

/- ──────────────────────────────────────────────────────────────────
   Hardware detection (setup.py:401-541).  External command output is
   modelled as `Option String`: `none` when the command is absent,
   times out, or fails (the `run(..., check=False)` helper returns
   None in all those cases), `some s` for its stripped stdout.
   The detection result triple is (found, gpu\x7bname, vram_gb).
   ────────────────────────────────────────────────────────────────── -/

/-- The "not found" detection result every failure path degrades to:
Python `(False, None, 0.0)`. -/
def notFound : Bool × Option String × ℚ :=
  (false, none, 0)

/-- Embeds `_detect_nvidia` (setup.py:401-415): split the `nvidia-smi`
output on the comma, strip both fields, parse the memory field as a number
of MiB and divide by 1024; any parse failure (missing second field,
non-numeric memory) is the caught-exception path returning not-found. -/
def detect_nvidia (out : Option String) : Bool × Option String × ℚ :=
  match out with
  | none => notFound
  | some s =>
    if s.data = [] then notFound
    else
      let parts := splitOnChar ',' s.data
      match parts with
      | [] => notFound
      | p0 :: rest =>
        match rest.head? with
        | none => notFound
        | some p1 =>
          match parseFloatChars (trimChars p1) with
          | none => notFound
          | some m => (true, some (String.mk (trimChars p0)), m / 1024)

/-- Embeds the raw-`AdapterRAM` fallback parse inside `_detect_amd_windows`
(setup.py:444-449): the part of the line after the first colon, stripped,
parsed as a Python int and divided by 1024³; every failure (no colon, empty
or non-integer value) leaves the 0.0 that `vram` was initialized to. -/
def parseRawVram (line : List Char) : ℚ :=
  match afterFirstChar ':' line with
  | none => 0
  | some rawCs =>
    let raw := trimChars rawCs
    if raw = [] then 0
    else
      match parseIntChars raw with
      | none => 0
      | some z => (z : ℚ) / (1024 : ℚ) ^ 3

/-- The table-lookup loop shared by both AMD paths (setup.py:439-441 and
471-474): value of the first `AMD_VRAM_TABLE` entry whose key occurs in the
adapter name, or the 0.0 the loop variable was initialized to. -/
def tableVram (name : List Char) : ℚ :=
  match AMD_VRAM_TABLE.find? (fun p => containsSeq p.1.data name) with
  | some p => p.2
  | none => 0

/-- Embeds the VRAM resolution of `_detect_amd_windows` for one adapter
(setup.py:437-449): first matching entry of `AMD_VRAM_TABLE` whose key is a
substring of the adapter name wins; only when no key matches (the looked-up
value stayed 0.0) is the raw `AdapterRAM` field of the line parsed. -/
def resolveAmdVram (name line : List Char) : ℚ :=
  if tableVram name = 0 then parseRawVram line else tableVram name

/-- The line scan of `_detect_amd_windows` (setup.py:431-450): walk the
`Format-List` output lines, remembering the adapter name from "Name" lines
that mention Radeon/AMD, and answer from the first subsequent "AdapterRAM"
line once a (nonempty) name is held. -/
def amdScan (gname : Option (List Char)) : List (List Char) → Bool × Option String × ℚ
  | [] => notFound
  | rawLine :: rest =>
    let line := trimChars rawLine
    if List.isPrefixOf "Name".data line ∧
        (containsSeq "Radeon".data line ∨ containsSeq "AMD".data line) then
      amdScan ((afterFirstChar ':' line).map trimChars) rest
    else
      match gname with
      | some n =>
        if List.isPrefixOf "AdapterRAM".data line ∧ n ≠ [] then
          (true, some (String.mk n), resolveAmdVram n line)
        else amdScan gname rest
      | none => amdScan gname rest

/-- Embeds `_detect_amd_windows` (setup.py:418-453): not-found off Windows
or when the WMI query produced nothing, otherwise the line scan above. -/
def detect_amd_windows (isWin : Bool) (out : Option String) : Bool × Option String × ℚ :=
  if isWin = false then notFound
  else
    match out with
    | none => notFound
    | some s =>
      if s.data = [] then notFound
      else amdScan none (splitOnChar '\n' s.data)

/-- The name scan of `_detect_amd_rocm` (setup.py:460-467): first line with
"Card series:"/"Card model:" yields the text after the last colon; first
line mentioning Radeon/AMD yields the stripped line. -/
def rocmNameScan : List (List Char) → Option (List Char)
  | [] => none
  | line :: rest =>
    if containsSeq "Card series:".data line ∨ containsSeq "Card model:".data line then
      some (trimChars ((splitOnChar ':' line).getLastD []))
    else if containsSeq "Radeon".data line ∨ containsSeq "AMD".data line then
      some (trimChars line)
    else rocmNameScan rest

/-- Embeds `_detect_amd_rocm` (setup.py:456-478): requires "GPU" in the
`rocm-smi` output and a nonempty detected name; VRAM comes only from the
lookup table (0.0 when no key matches). -/
def detect_amd_rocm (out : Option String) : Bool × Option String × ℚ :=
  match out with
  | none => notFound
  | some s =>
    if s.data = [] then notFound
    else if containsSeq "GPU".data s.data then
      match rocmNameScan (splitOnChar '\n' s.data) with
      | none => notFound
      | some n =>
        if n = [] then notFound
        else (true, some (String.mk n), tableVram n)
    else notFound

/-- The hardware snapshot `step_hardware` assembles (setup.py:536-540). -/
structure HardwareSnapshot where
  has_gpu : Bool
  gpu_type : String
  gpu_name : Option String
  vram : ℚ
  ram : ℚ
  cores : ℕ
deriving DecidableEq, Repr

/-- The environment one `step_hardware` run observes: the three probe
outputs, whether the platform is Windows, total physical memory in bytes,
and the physical/logical core counts psutil reports. -/
structure HwInputs where
  nvOut : Option String
  isWin : Bool
  amdWinOut : Option String
  rocmOut : Option String
  totalBytes : ℕ
  physCores : Option ℕ
  logCores : ℕ
deriving DecidableEq, Repr

/-- Core count as `step_hardware` computes it (setup.py:533): physical
count, falling back to the logical count when psutil reports None or 0
(Python `or` falsiness). -/
def coresOf (physCores : Option ℕ) (logCores : ℕ) : ℕ :=
  match physCores with
  | some n => if n = 0 then logCores else n
  | none => logCores

/-- Embeds `step_hardware` (setup.py:492-541): NVIDIA first, then the
Windows WMI path, then rocm-smi, then CPU-only; RAM is total bytes over
1024³.  The informational Ollama-GPU check and console output, which do not
affect the returned snapshot, are omitted. -/
def step_hardware (inp : HwInputs) : HardwareSnapshot :=
  let ram : ℚ := (inp.totalBytes : ℚ) / (1024 : ℚ) ^ 3
  let cores := coresOf inp.physCores inp.logCores
  let nv := detect_nvidia inp.nvOut
  if nv.1 then ⟨true, "nvidia", nv.2.1, nv.2.2, ram, cores⟩
  else
    let amdw := detect_amd_windows inp.isWin inp.amdWinOut
    let amd := if amdw.1 then amdw else detect_amd_rocm inp.rocmOut
    if amd.1 then ⟨true, "amd", amd.2.1, amd.2.2, ram, cores⟩
    else ⟨false, "none", none, 0, ram, cores⟩

/- ──────────────────────────────────────────────────────────────────
   Service launch (step_ollama, setup.py:204-288; step_searxng,
   setup.py:696-745).  The service's reachability over time is
   modelled as `probe : ℕ → Bool`, where `probe 0` is the initial
   check and `probe k` (k ≥ 1) the k-th poll of the wait loop.
   ────────────────────────────────────────────────────────────────── -/

/-- Outcome of a service-launch step: the returned boolean, how many times
the start action (Popen / `docker compose up -d`) was invoked, and how many
polls of the wait loop actually ran. -/
structure LaunchResult where
  success : Bool
  starts : ℕ
  polls : ℕ
deriving DecidableEq, Repr

/-- The bounded wait loop (setup.py:278-284 and 728-733): up to `n` further
probes starting at time index `i`, reporting success and the number of
probes consumed. -/
def pollResult (probe : ℕ → Bool) : ℕ → ℕ → Bool × ℕ
  | 0, _ => (false, 0)
  | n + 1, i =>
    if probe i then (true, 1)
    else
      match pollResult probe n (i + 1) with
      | (b, k) => (b, k + 1)

/-- Embeds `step_ollama` after its CLI check (setup.py:236-288): immediate
success if the service already answers; in check-only mode, failure with no
start; otherwise one start attempt (failure if Popen raises) followed by at
most 12 polls at 5-second intervals (the bounded 60-second wait). -/
def step_ollama (check_only cliOk : Bool) (probe : ℕ → Bool) (startOk : Bool) : LaunchResult :=
  if cliOk = false then ⟨false, 0, 0⟩
  else if probe 0 then ⟨true, 0, 0⟩
  else if check_only then ⟨false, 0, 0⟩
  else if startOk = false then ⟨false, 1, 0⟩
  else
    match pollResult probe 12 1 with
    | (b, k) => ⟨b, 1, k⟩

/-- Embeds `step_searxng` (setup.py:696-745): immediate success if SearXNG
already answers; in check-only mode, failure with no start; failure when the
compose file is missing; otherwise one `docker compose up -d` invocation
(failure if it raises) followed by at most 18 polls at 5-second intervals
(the bounded 90-second wait).  The generated-config writes on the act path
are tracked separately by the config-step model. -/
def step_searxng (check_only : Bool) (probe : ℕ → Bool) (composeExists upOk : Bool) : LaunchResult :=
  if probe 0 then ⟨true, 0, 0⟩
  else if check_only then ⟨false, 0, 0⟩
  else if composeExists = false then ⟨false, 0, 0⟩
  else if upOk = false then ⟨false, 1, 0⟩
  else
    match pollResult probe 18 1 with
    | (b, k) => ⟨b, 1, k⟩

/- ──────────────────────────────────────────────────────────────────
   Configuration step (step_config, setup.py:824-890), modelled at
   the level of filesystem existence: which artifacts exist before
   and after the step.
   ────────────────────────────────────────────────────────────────── -/

/-- Existence state of the filesystem artifacts `step_config` touches:
config.yaml, the .env file, and the five runtime directories. -/
structure FSState where
  config_yaml : Bool
  env_file : Bool
  dir_cache : Bool
  dir_runs : Bool
  dir_store : Bool
  dir_inbox : Bool
  dir_logs : Bool
deriving DecidableEq, Repr

/-- Embeds `step_config` (setup.py:824-890) as a transformer on artifact
existence.  Missing config.yaml in check-only mode returns failure before
anything else; otherwise config.yaml and .env are written only when absent
and not in check-only mode (an existing config.yaml is only validated, with
warnings), and then the five runtime directories are created with
`mkdir(exist_ok=True)` unconditionally — the mkdir loop (setup.py:885-888)
is not guarded by `check_only`. -/
def step_config (check_only : Bool) (fs : FSState) : Bool × FSState :=
  if fs.config_yaml = false ∧ check_only then (false, fs)
  else
    let fs1 := if fs.config_yaml then fs else { fs with config_yaml := true }
    let fs2 :=
      if fs1.env_file then fs1
      else if check_only then fs1
      else { fs1 with env_file := true }
    (true, { fs2 with dir_cache := true, dir_runs := true, dir_store := true,
                      dir_inbox := true, dir_logs := true })

/- ──────────────────────────────────────────────────────────────────
   Smoke test (step_validate_and_test, setup.py:948-1012).  Each HTTP
   probe outcome is `Option String` (`none`: no response); Python
   truthiness makes an empty-string body count as no response too.
   ────────────────────────────────────────────────────────────────── -/

/-- Python truthiness of an optional response string. -/
def truthy : Option String → Bool
  | none => false
  | some s => decide (s.data ≠ [])

/-- Embeds the smoke-test section of `step_validate_and_test`
(setup.py:948-1012): `smoke_ok` starts true, the LLM probe and the search
probe each clear it when they yield no response (their JSON bodies affect
only console output), and the HTTP-fetch check with its fallback endpoint
runs without ever touching `smoke_ok`.  All three sub-checks are evaluated
unconditionally, mirroring that no earlier failure skips a later check. -/
def step_smoke (llm search fetch1 fetch2 : Option String) : Bool :=
  let smoke1 := if truthy llm then true else false
  let smoke2 := if truthy search then smoke1 else false
  let _fetchOk := if truthy fetch1 then true else truthy fetch2
  smoke2

/- ──────────────────────────────────────────────────────────────────
   Helper lemmas about the tier-selection loop.
   ────────────────────────────────────────────────────────────────── -/

/-- When some entry of the catalog segment matches, the selection loop
returns a catalog entry's selection. -/
lemma selectLoop_mem_of_match (v r : ℚ) (l : List Tier)
    (h : ∃ t ∈ l, t.min_vram ≤ v ∧ t.min_ram ≤ r) :
    ∃ t ∈ l, selectLoop v r l = tierSelection t := by
  induction l with
  | nil => simp at h
  | cons a rest ih =>
    by_cases hp : a.min_vram ≤ v ∧ a.min_ram ≤ r
    · exact ⟨a, List.mem_cons_self a rest, by simp [selectLoop, hp]⟩
    · obtain ⟨t, ht, hmt⟩ := h
      rcases List.mem_cons.mp ht with rfl | ht
      · exact absurd hmt hp
      · obtain ⟨u, hu, hequ⟩ := ih ⟨t, ht, hmt⟩
        exact ⟨u, List.mem_cons_of_mem a hu, by simp [selectLoop, hp, hequ]⟩

/-- When no entry of the catalog segment matches, the selection loop
returns the preset defaults. -/
lemma selectLoop_nomatch (v r : ℚ) (l : List Tier)
    (h : ∀ t ∈ l, ¬(t.min_vram ≤ v ∧ t.min_ram ≤ r)) :
    selectLoop v r l = defaultSelection := by
  induction l with
  | nil => rfl
  | cons a rest ih =>
    have ha := h a (List.mem_cons_self a rest)
    simp only [selectLoop, if_neg ha]
    exact ih (fun t ht => h t (List.mem_cons_of_mem a ht))

/-- The selection loop is a first-match scan: if entry `i` matches and no
earlier entry does, entry `i`'s selection is returned. -/
lemma selectLoop_first (v r : ℚ) (l : List Tier) (i : ℕ) (t : Tier)
    (ht : l[i]? = some t) (hp : t.min_vram ≤ v ∧ t.min_ram ≤ r)
    (hb : ∀ j, j < i → ∀ u, l[j]? = some u → ¬(u.min_vram ≤ v ∧ u.min_ram ≤ r)) :
    selectLoop v r l = tierSelection t := by
  induction l generalizing i with
  | nil => simp at ht
  | cons a rest ih =>
    cases i with
    | zero =>
      simp only [List.getElem?_cons_zero, Option.some.injEq] at ht
      subst ht
      simp [selectLoop, hp]
    | succ i =>
      have ha : ¬(a.min_vram ≤ v ∧ a.min_ram ≤ r) :=
        hb 0 (Nat.succ_pos i) a (by simp)
      simp only [selectLoop, if_neg ha]
      refine ih i (by simpa using ht) ?_
      intro j hj u hu
      exact hb (j + 1) (Nat.succ_lt_succ hj) u (by simpa using hu)

/-- Making a snapshot weakly larger in both coordinates can only move the
first matching position earlier (monotone predicate, monotone scan). -/
lemma tierRankAux_mono (v1 v2 r1 r2 : ℚ) (hv : v1 ≤ v2) (hr : r1 ≤ r2)
    (l : List Tier) : tierRankAux v2 r2 l ≤ tierRankAux v1 r1 l := by
  induction l with
  | nil => exact Nat.le_refl 0
  | cons a rest ih =>
    by_cases h2 : a.min_vram ≤ v2 ∧ a.min_ram ≤ r2
    · simp [tierRankAux, h2]
    · have h1 : ¬(a.min_vram ≤ v1 ∧ a.min_ram ≤ r1) := by
        intro h1
        exact h2 ⟨le_trans h1.1 hv, le_trans h1.2 hr⟩
      simp only [tierRankAux, if_neg h1, if_neg h2]
      exact Nat.succ_le_succ ih

/-- The selection loop returns exactly the entry sitting at the first-match
position, the defaults when that position is past the end. -/
lemma selectLoop_eq_rank (v r : ℚ) (l : List Tier) :
    selectLoop v r l =
      ((l[tierRankAux v r l]?).map tierSelection).getD defaultSelection := by
  induction l with
  | nil => rfl
  | cons a rest ih =>
    by_cases hp : a.min_vram ≤ v ∧ a.min_ram ≤ r
    · simp [selectLoop, tierRankAux, hp]
    · simp only [selectLoop, tierRankAux, if_neg hp, List.getElem?_cons_succ]
      exact ih

/- ──────────────────────────────────────────────────────────────────
   Claim theorems.
   ────────────────────────────────────────────────────────────────── -/

/-- C1 counterexample: the catalog's final entry has `min_ram_gb = 16`,
not 0, and the snapshot `vram_gb = 0, ram_gb = 8` resolves to a selection
that no catalog entry produces — the claimed guaranteed catalog fallback
does not exist. -/
theorem c1_counterexample :
    (MODEL_TIERS.map Tier.min_ram).getLast? = some 16
    ∧ ¬ ∃ t ∈ MODEL_TIERS, selectTier 0 8 = tierSelection t := by
  decide

/-- C1 (amended): tier resolution terminates for every snapshot; for every
snapshot with `vram_gb ≥ 0` and `ram_gb ≥ 16` it returns a tier present in
the catalog, the catalog's final entry having `min_vram_gb = 0` and
`min_ram_gb = 16` so that it matches every such snapshot as the fallback;
snapshots with less RAM fall back to built-in defaults outside the
catalog. -/
theorem c1_total_over_catalog (v r : ℚ) (hv : 0 ≤ v) (hr : 16 ≤ r) :
    (∃ t ∈ MODEL_TIERS, selectTier v r = tierSelection t)
    ∧ (MODEL_TIERS.getLast?).map Tier.min_vram = some 0
    ∧ (MODEL_TIERS.getLast?).map Tier.min_ram = some 16 := by
  refine ⟨?_, by decide, by decide⟩
  apply selectLoop_mem_of_match
  exact ⟨⟨0, 16, "Minimum (16 GB RAM)", "phi3:mini", "phi3:mini", "phi3:mini"⟩,
    by decide, hv, hr⟩

/-- C1 witness: the theorem at the concrete snapshot `vram = 0, ram = 16`. -/
theorem c1_witness :
    ((∃ t ∈ MODEL_TIERS, selectTier 0 16 = tierSelection t)
    ∧ (MODEL_TIERS.getLast?).map Tier.min_vram = some 0
    ∧ (MODEL_TIERS.getLast?).map Tier.min_ram = some 16) :=
  c1_total_over_catalog 0 16 (by norm_num) (by norm_num)

/-- C3 counterexample: the snapshot `vram_gb = 0, ram_gb = 8` does not
resolve to the catalog's final (fallback) tier: it yields the built-in
default selection, whose tier label matches no catalog entry. -/
theorem c3_counterexample :
    MODEL_TIERS.getLast? =
      some ⟨0, 16, "Minimum (16 GB RAM)", "phi3:mini", "phi3:mini", "phi3:mini"⟩
    ∧ selectTier 0 8 ≠
        tierSelection ⟨0, 16, "Minimum (16 GB RAM)", "phi3:mini", "phi3:mini", "phi3:mini"⟩
    ∧ (selectTier 0 8).tier_name ∉ MODEL_TIERS.map Tier.label := by
  decide

/-- C3 (amended): tier resolution is a deterministic first-match scan —
whenever entry `i` of the catalog satisfies
`vram ≥ min_vram_gb ∧ ram ≥ min_ram_gb` and no earlier entry does, entry
`i` is returned; a snapshot with `vram_gb = 24, ram_gb = 32` resolves to
the top catalog tier; a snapshot with `vram_gb = 0, ram_gb = 8` matches no
catalog entry and yields the built-in default selection instead of a
catalog tier. -/
theorem c3_first_match :
    (∀ (v r : ℚ) (i : ℕ) (t : Tier), MODEL_TIERS[i]? = some t →
       t.min_vram ≤ v ∧ t.min_ram ≤ r →
       (∀ j, j < i → ∀ u, MODEL_TIERS[j]? = some u →
          ¬(u.min_vram ≤ v ∧ u.min_ram ≤ r)) →
       selectTier v r = tierSelection t)
    ∧ (∀ t, MODEL_TIERS.head? = some t → selectTier 24 32 = tierSelection t)
    ∧ selectTier 0 8 = defaultSelection := by
  refine ⟨?_, by decide, by decide⟩
  intro v r i t ht hp hb
  exact selectLoop_first v r MODEL_TIERS i t ht hp hb

/-- C3 witness: the first-match scan at the concrete snapshot
`vram = 24, ram = 32` and catalog position 0. -/
theorem c3_witness :
    selectTier 24 32 =
      tierSelection ⟨24, 32, "High-end GPU (24 GB+ VRAM)",
        "qwen3:8b", "qwen3:30b", "gemma3:27b"⟩ :=
  c3_first_match.1 24 32 0
    ⟨24, 32, "High-end GPU (24 GB+ VRAM)", "qwen3:8b", "qwen3:30b", "gemma3:27b"⟩
    (by decide) (by norm_num)
    (fun j hj u _ => absurd hj (Nat.not_lt_zero j))

/-- C4: tier resolution is monotonic — increasing `vram_gb` or `ram_gb`
while holding the other fixed never downgrades the returned tier's
capability rank (its position in the catalog's descending-capability
order, with the built-in default ranked below every catalog entry), and
the returned selection is exactly the one at that rank. -/
theorem c4_monotone :
    (∀ v1 v2 r : ℚ, v1 ≤ v2 → tierRank v2 r ≤ tierRank v1 r)
    ∧ (∀ v r1 r2 : ℚ, r1 ≤ r2 → tierRank v r2 ≤ tierRank v r1)
    ∧ (∀ v r : ℚ, selectTier v r =
        ((MODEL_TIERS[tierRank v r]?).map tierSelection).getD defaultSelection) := by
  refine ⟨?_, ?_, ?_⟩
  · intro v1 v2 r hv
    exact tierRankAux_mono v1 v2 r r hv (le_refl r) MODEL_TIERS
  · intro v r1 r2 hr
    exact tierRankAux_mono v v r1 r2 (le_refl v) hr MODEL_TIERS
  · intro v r
    exact selectLoop_eq_rank v r MODEL_TIERS

/-- C4 witness: monotonicity at concrete snapshots — raising VRAM from 12
to 24 at 32 GB RAM, and raising RAM from 8 to 32 at 0 VRAM. -/
theorem c4_witness :
    tierRank 24 32 ≤ tierRank 12 32 ∧ tierRank 0 32 ≤ tierRank 0 8 :=
  ⟨c4_monotone.1 12 24 32 (by norm_num), c4_monotone.2.1 0 8 32 (by norm_num)⟩

/-- C10: every catalog entry requires at least 16 GB RAM, so a snapshot
with `ram_gb < 16` matches no entry and model selection returns the preset
defaults — all three models `phi3:mini` with tier label `Minimum`, a label
no catalog entry carries. -/
theorem c10_below_minimum_defaults (v r : ℚ) (hr : r < 16) :
    selectTier v r = defaultSelection
    ∧ defaultSelection =
        ⟨"phi3:mini", "phi3:mini", "phi3:mini", "Minimum"⟩
    ∧ (∀ t ∈ MODEL_TIERS, (16 : ℚ) ≤ t.min_ram)
    ∧ (∀ t ∈ MODEL_TIERS, ¬(t.min_vram ≤ v ∧ t.min_ram ≤ r))
    ∧ defaultSelection.tier_name ∉ MODEL_TIERS.map Tier.label := by
  have h16 : ∀ t ∈ MODEL_TIERS, (16 : ℚ) ≤ t.min_ram := by decide
  have hno : ∀ t ∈ MODEL_TIERS, ¬(t.min_vram ≤ v ∧ t.min_ram ≤ r) := by
    intro t ht hm
    have := h16 t ht
    linarith [hm.2]
  exact ⟨selectLoop_nomatch v r MODEL_TIERS hno, rfl, h16, hno, by decide⟩

/-- C10 witness: the defaults at the concrete snapshot
`vram = 0, ram = 8`. -/
theorem c10_witness :
    selectTier 0 8 = defaultSelection
    ∧ defaultSelection =
        ⟨"phi3:mini", "phi3:mini", "phi3:mini", "Minimum"⟩
    ∧ (∀ t ∈ MODEL_TIERS, (16 : ℚ) ≤ t.min_ram)
    ∧ (∀ t ∈ MODEL_TIERS, ¬(t.min_vram ≤ 0 ∧ t.min_ram ≤ 8))
    ∧ defaultSelection.tier_name ∉ MODEL_TIERS.map Tier.label :=
  c10_below_minimum_defaults 0 8 (by norm_num)

/-- C2 (code bug): in validate-only mode with config.yaml and .env present
but the runtime directories absent, `step_config` still creates all five
runtime directories — the unguarded `mkdir(exist_ok=True)` loop
(setup.py:885-888) mutates filesystem state even under `--check`,
contradicting the documented "no changes" contract of that flag. -/
theorem c2_check_mode_creates_dirs :
    step_config true ⟨true, true, false, false, false, false, false⟩ =
      (true, ⟨true, true, true, true, true, true, true⟩)
    ∧ (step_config true ⟨true, true, false, false, false, false, false⟩).2 ≠
        ⟨true, true, false, false, false, false, false⟩ := by
  decide

/-- C5: the service-launch contract of `step_ollama` and `step_searxng` —
if the initial probe succeeds, success is returned immediately with the
start action never invoked and no wait-loop polls; if the probe never
succeeds, the start action is invoked exactly once and failure is returned
after exactly the bounded maximum number of polls (12 for Ollama's 60 s
wait, 18 for SearXNG's 90 s wait, at 5 s intervals). -/
theorem c5_ensure_running (probe : ℕ → Bool) :
    (probe 0 = true →
      step_ollama false true probe true = ⟨true, 0, 0⟩
      ∧ step_searxng false probe true true = ⟨true, 0, 0⟩)
    ∧ ((∀ k, probe k = false) →
      step_ollama false true probe true = ⟨false, 1, 12⟩
      ∧ step_searxng false probe true true = ⟨false, 1, 18⟩) := by
  have hpoll : ∀ (h : ∀ k, probe k = false) (n i : ℕ),
      pollResult probe n i = (false, n) := by
    intro h n
    induction n with
    | zero => intro i; rfl
    | succ n ih =>
      intro i
      simp only [pollResult, h i, Bool.false_eq_true, if_false, ih (i + 1)]
  constructor
  · intro h0
    constructor
    · simp [step_ollama, h0]
    · simp [step_searxng, h0]
  · intro h
    constructor
    · simp [step_ollama, h 0, hpoll h]
    · simp [step_searxng, h 0, hpoll h]

/-- C5 witness: the contract at the always-reachable and never-reachable
concrete probes. -/
theorem c5_witness :
    (step_ollama false true (fun _ => true) true = ⟨true, 0, 0⟩
      ∧ step_searxng false (fun _ => true) true true = ⟨true, 0, 0⟩)
    ∧ (step_ollama false true (fun _ => false) true = ⟨false, 1, 12⟩
      ∧ step_searxng false (fun _ => false) true true = ⟨false, 1, 18⟩) :=
  ⟨(c5_ensure_running (fun _ => true)).1 rfl,
   (c5_ensure_running (fun _ => false)).2 (fun _ => rfl)⟩

/-- C6: whenever the AMD adapter name contains a key of the static lookup
table, the Windows AMD path resolves VRAM to a table value, ignoring the
raw WMI `AdapterRAM` field entirely; the raw field is parsed only when no
table key matches; and concretely, an RX 7900 XT adapter whose WMI line
reports the 32-bit-capped value 4293918720 bytes resolves to the table's
20 GB. -/
theorem c6_amd_table_priority :
    (∀ name line1 line2 : List Char,
      (∃ p ∈ AMD_VRAM_TABLE, containsSeq p.1.data name = true) →
      resolveAmdVram name line1 = resolveAmdVram name line2
      ∧ ∃ p ∈ AMD_VRAM_TABLE, resolveAmdVram name line1 = p.2)
    ∧ (∀ name line : List Char,
      (∀ p ∈ AMD_VRAM_TABLE, containsSeq p.1.data name = false) →
      resolveAmdVram name line = parseRawVram line)
    ∧ detect_amd_windows true
        (some "Name       : AMD Radeon RX 7900 XT\nAdapterRAM : 4293918720") =
        (true, some "AMD Radeon RX 7900 XT", 20) := by
  have hpos : ∀ p ∈ AMD_VRAM_TABLE, (0 : ℚ) < p.2 := by decide
  refine ⟨?_, ?_, by decide⟩
  · intro name line1 line2 h
    rcases hf : AMD_VRAM_TABLE.find? (fun p => containsSeq p.1.data name) with _ | p
    · obtain ⟨p, hp, hc⟩ := h
      have := List.find?_eq_none.mp hf p hp
      simp [hc] at this
    · have hmem := List.mem_of_find?_eq_some hf
      have htv : tableVram name = p.2 := by
        simp [tableVram, hf]
      have hne : tableVram name ≠ 0 := by
        rw [htv]
        exact ne_of_gt (hpos p hmem)
      constructor
      · simp [resolveAmdVram, if_neg hne]
      · exact ⟨p, hmem, by rw [resolveAmdVram, if_neg hne, htv]⟩
  · intro name line h
    have hf : AMD_VRAM_TABLE.find? (fun p => containsSeq p.1.data name) = none :=
      List.find?_eq_none.mpr (fun p hp => by simp [h p hp])
    have htv : tableVram name = 0 := by simp [tableVram, hf]
    simp [resolveAmdVram, htv]

/-- C6 witness: table priority at the concrete adapter name
"Radeon RX 7800 XT" with two different raw WMI lines. -/
theorem c6_witness :
    resolveAmdVram "Radeon RX 7800 XT".data "AdapterRAM : 123".data =
      resolveAmdVram "Radeon RX 7800 XT".data "AdapterRAM : 4293918720".data
    ∧ ∃ p ∈ AMD_VRAM_TABLE,
        resolveAmdVram "Radeon RX 7800 XT".data "AdapterRAM : 123".data = p.2 :=
  c6_amd_table_priority.1 "Radeon RX 7800 XT".data "AdapterRAM : 123".data
    "AdapterRAM : 4293918720".data ⟨("7800 XT", 16), by decide, by decide⟩

/-- C7: the NVIDIA path divides the memory figure reported by nvidia-smi
(in MiB) by exactly 1024 — binary GiB semantics — to produce the
snapshot's VRAM in GB, and for a nonzero figure that differs from dividing
by 1000. -/
theorem c7_nvidia_div_1024 (s : String) (p0 p1 : List Char)
    (rest : List (List Char)) (m : ℚ)
    (hsplit : splitOnChar ',' s.data = p0 :: p1 :: rest)
    (hparse : parseFloatChars (trimChars p1) = some m) :
    detect_nvidia (some s) = (true, some (String.mk (trimChars p0)), m / 1024)
    ∧ (m ≠ 0 → m / 1024 ≠ m / 1000) := by
  have hne : s.data ≠ [] := by
    intro h0
    rw [h0] at hsplit
    simp [splitOnChar] at hsplit
  constructor
  · simp [detect_nvidia, hne, hsplit, hparse]
  · intro hm hc
    have h2 : m * 1000 = m * 1024 :=
      (div_eq_div_iff (by norm_num) (by norm_num)).mp hc
    have h3 : (1000 : ℚ) = 1024 := mul_left_cancel₀ hm h2
    norm_num at h3

/-- C7 witness: the division at the concrete nvidia-smi output
"NVIDIA GeForce RTX 3090, 24576" (24576 MiB = 24 GiB). -/
theorem c7_witness :
    detect_nvidia (some "NVIDIA GeForce RTX 3090, 24576") =
      (true, some (String.mk (trimChars "NVIDIA GeForce RTX 3090".data)),
        (24576 : ℚ) / 1024)
    ∧ ((24576 : ℚ) ≠ 0 → (24576 : ℚ) / 1024 ≠ (24576 : ℚ) / 1000) :=
  c7_nvidia_div_1024 "NVIDIA GeForce RTX 3090, 24576"
    "NVIDIA GeForce RTX 3090".data " 24576".data [] 24576
    (by decide) (by decide)

/-- C8: the smoke test's aggregate verdict is failure exactly when the LLM
generate probe or the search query probe fails to respond (Python
truthiness of the response body), and the outbound HTTP-fetch check with
its fallback endpoint never changes the verdict; all sub-checks are
evaluated regardless of earlier failures. -/
theorem c8_smoke_verdict (llm search fetch1 fetch2 : Option String) :
    (step_smoke llm search fetch1 fetch2 = false ↔
      truthy llm = false ∨ truthy search = false)
    ∧ (∀ f1 f2 : Option String,
        step_smoke llm search fetch1 fetch2 = step_smoke llm search f1 f2) := by
  constructor
  · cases hl : truthy llm <;> cases hs : truthy search <;>
      simp [step_smoke, hl, hs]
  · intro f1 f2
    rfl

/-- Every unsuccessful NVIDIA detection is the canonical not-found triple:
no detection path produces a partially-filled failure value. -/
lemma detect_nvidia_false (out : Option String)
    (h : (detect_nvidia out).1 = false) : detect_nvidia out = notFound := by
  match out with
  | none => rfl
  | some s =>
    by_cases h0 : s.data = []
    · simp [detect_nvidia, h0]
    · rcases hsplit : splitOnChar ',' s.data with _ | ⟨p0, rest⟩
      · simp [detect_nvidia, h0, hsplit]
      · rcases hh : rest.head? with _ | p1
        · simp [detect_nvidia, h0, hsplit, hh]
        · rcases hp : parseFloatChars (trimChars p1) with _ | m
          · simp [detect_nvidia, h0, hsplit, hh, hp]
          · simp [detect_nvidia, h0, hsplit, hh, hp] at h

/-- Every unsuccessful pass of the Windows AMD line scan is the canonical
not-found triple. -/
lemma amdScan_false (lines : List (List Char)) (gname : Option (List Char))
    (h : (amdScan gname lines).1 = false) : amdScan gname lines = notFound := by
  induction lines generalizing gname with
  | nil => rfl
  | cons rawLine rest ih =>
    by_cases h1 : List.isPrefixOf "Name".data (trimChars rawLine) ∧
        (containsSeq "Radeon".data (trimChars rawLine)
          ∨ containsSeq "AMD".data (trimChars rawLine))
    · simp only [amdScan] at h ⊢
      rw [if_pos h1] at h ⊢
      exact ih _ h
    · match gname with
      | none =>
        simp only [amdScan] at h ⊢
        rw [if_neg h1] at h ⊢
        exact ih none h
      | some n =>
        by_cases h2 : List.isPrefixOf "AdapterRAM".data (trimChars rawLine) ∧ n ≠ []
        · simp only [amdScan, if_neg h1] at h
          simp [h2] at h
        · simp only [amdScan] at h ⊢
          rw [if_neg h1] at h ⊢
          simp only [if_neg h2] at h ⊢
          exact ih (some n) h

/-- Every unsuccessful Windows AMD detection is the canonical not-found
triple. -/
lemma detect_amd_windows_false (isWin : Bool) (out : Option String)
    (h : (detect_amd_windows isWin out).1 = false) :
    detect_amd_windows isWin out = notFound := by
  match isWin, out with
  | false, _ => rfl
  | true, none => rfl
  | true, some s =>
    by_cases h0 : s.data = []
    · simp [detect_amd_windows, h0]
    · rw [detect_amd_windows] at h ⊢
      simp only [h0, if_false, Bool.true_eq_false] at h ⊢
      exact amdScan_false _ _ (by simpa using h)

/-- Every unsuccessful rocm-smi AMD detection is the canonical not-found
triple. -/
lemma detect_amd_rocm_false (out : Option String)
    (h : (detect_amd_rocm out).1 = false) : detect_amd_rocm out = notFound := by
  match out with
  | none => rfl
  | some s =>
    by_cases h0 : s.data = []
    · simp [detect_amd_rocm, h0]
    · by_cases hg : containsSeq "GPU".data s.data = true
      · rcases hn : rocmNameScan (splitOnChar '\n' s.data) with _ | n
        · simp [detect_amd_rocm, h0, hg, hn]
        · by_cases hne : n = []
          · simp [detect_amd_rocm, h0, hg, hn, hne]
          · simp [detect_amd_rocm, h0, hg, hn, hne] at h
      · simp [detect_amd_rocm, h0, hg]

/-- C9: hardware detection never aborts — an absent command (None output)
or any output the parser rejects makes each detection path return the
canonical not-found value, and with every probe absent the overall
detection still completes, producing the degraded CPU-only snapshot with
the RAM and core figures it measured. -/
theorem c9_detection_never_raises :
    detect_nvidia none = notFound
    ∧ (∀ s : String, (detect_nvidia (some s)).1 = false →
        detect_nvidia (some s) = notFound)
    ∧ (∀ w : Bool, detect_amd_windows w none = notFound)
    ∧ (∀ s : String, (detect_amd_windows true (some s)).1 = false →
        detect_amd_windows true (some s) = notFound)
    ∧ detect_amd_rocm none = notFound
    ∧ (∀ s : String, (detect_amd_rocm (some s)).1 = false →
        detect_amd_rocm (some s) = notFound)
    ∧ (∀ (isWin : Bool) (totalBytes : ℕ) (physCores : Option ℕ) (logCores : ℕ),
        step_hardware ⟨none, isWin, none, none, totalBytes, physCores, logCores⟩ =
          ⟨false, "none", none, 0, (totalBytes : ℚ) / (1024 : ℚ) ^ 3,
            coresOf physCores logCores⟩) := by
  refine ⟨rfl, fun s h => detect_nvidia_false (some s) h,
    fun w => by cases w <;> rfl,
    fun s h => detect_amd_windows_false true (some s) h,
    rfl, fun s h => detect_amd_rocm_false (some s) h,
    fun isWin totalBytes physCores logCores => ?_⟩
  cases isWin <;> rfl

/-- C9 witness: the not-found degradation at concrete unparsable probe
outputs — an nvidia-smi line with no comma, a WMI dump with no AMD
adapter, and a rocm-smi dump with no recognizable card name. -/
theorem c9_witness :
    detect_nvidia (some "not a csv line") = notFound
    ∧ detect_amd_windows true (some "Name       : Intel Arc A770") = notFound
    ∧ detect_amd_rocm (some "GPU[0] unknown") = notFound :=
  ⟨c9_detection_never_raises.2.1 "not a csv line" (by decide),
   c9_detection_never_raises.2.2.2.1 "Name       : Intel Arc A770" (by decide),
   c9_detection_never_raises.2.2.2.2.2.1 "GPU[0] unknown" (by decide)⟩

end EvidentSetup
